import Mathlib

/-!
Shallow embedding of `calendar_transformer.py` (repository
illixion/CalendarTransformer) in Lean 4, together with theorems settling
the frozen claims about it.

Modelling conventions:
* A point in time is either a UTC instant (seconds since the epoch) or a
  calendar date (days since the epoch); this mirrors the Python split
  between `datetime.datetime` and `datetime.date`.
* The per-event dictionaries built in `EventTransformer.run` become the
  `Event` structure.  The Python `rsvp` and `location` values are `None`
  or a string, and every use in the source guards them with truthiness
  (`val or ""`, `event.get(..., "")`, `if event.get(...)`), under which
  `None` and `""` behave identically; they are modelled as plain strings
  with `""` for the absent value.  `uid` and `original_uid` keep the
  `None`/string distinction (`Option String`) because `event_uid` and
  the run loop distinguish them.
* Python `s in val` on strings is character-list substring containment
  (`strContains`); `str.startswith` is `strStartsWith`; `str.upper` is
  `strUpper` (the strings compared in the source are ASCII).
-/

namespace CalendarTransformer

/-- A Python `datetime.datetime` (UTC instant, in seconds since the epoch)
or `datetime.date` (days since the epoch). -/
inductive CalTime where
  | instant : Int → CalTime
  | date : Int → CalTime
deriving DecidableEq

/-- Seconds in a day, for `datetime.timedelta(days=n)` arithmetic. -/
def secondsPerDay : Int := 86400

/-- Seconds in an hour, for `datetime.timedelta(hours=1)`. -/
def secondsPerHour : Int := 3600

/-- The Python pattern `t.astimezone(utc) if isinstance(t, datetime) else
datetime.combine(t, time.min, tzinfo=utc)`: a date becomes midnight UTC. -/
def awareSeconds : CalTime → Int
  | .instant t => t
  | .date d => d * secondsPerDay

/-- Python `s in val`: `s.data` occurs as a contiguous run inside
`val.data`. -/
def strContains (val s : String) : Bool :=
  (List.range (val.data.length + 1)).any (fun i => s.data.isPrefixOf (val.data.drop i))

/-- Python `val.startswith(p)`. -/
def strStartsWith (val p : String) : Bool :=
  p.data.isPrefixOf val.data

/-- Python `s.upper()` (ASCII uppercasing, which is all the source compares). -/
def strUpper (s : String) : String :=
  String.mk (s.data.map Char.toUpper)

/-- The per-event dictionary assembled in `EventTransformer.run`. -/
structure Event where
  calendar : String
  uid : Option String
  summary : String
  dtstart : CalTime
  dtend : Option CalTime
  duration : Option Int
  location : String
  rsvp : String
  original_uid : Option String
deriving DecidableEq

/-- `EventTransformer.should_delete_event`: delete if RSVP is DECLINED
(any case) or the summary starts with the cancellation glyph. -/
def should_delete_event (e : Event) : Bool :=
  if (!(e.rsvp == "")) && (strUpper e.rsvp == "DECLINED") then true
  else if strStartsWith e.summary "❌" then true
  else false

/-- The `filters` table of one filter set from the configuration. -/
structure Filters where
  calendar_name : Option String
  not_calendar_name : Option String
  event_name_contains : List String
  event_name_not_contains : List String
  location_contains : List String
  location_not_contains : List String
deriving DecidableEq

/-- Python truthiness of an optional string configuration entry:
present and non-empty. -/
def optTruthy : Option String → Bool
  | none => false
  | some s => !(s == "")

/-- The inner `match_substring` of `EventTransformer.match_event`: an
empty list matches vacuously; otherwise every substring must be in `val`
(`negate = false`) or absent from `val` (`negate = true`). -/
def filterMatchSubstring (val : String) (substrings : List String) (negate : Bool) : Bool :=
  if substrings.isEmpty then true
  else substrings.all (fun s => !(strContains val s == negate))

/-- `EventTransformer.match_event`: the early-return chain of the source,
all clauses AND-combined. -/
def match_event (e : Event) (f : Filters) : Bool :=
  if optTruthy f.calendar_name && !(some e.calendar == f.calendar_name) then false
  else if optTruthy f.not_calendar_name && (some e.calendar == f.not_calendar_name) then false
  else if !(filterMatchSubstring e.summary f.event_name_contains false) then false
  else if !(filterMatchSubstring e.summary f.event_name_not_contains true) then false
  else if !(filterMatchSubstring e.location f.location_contains false) then false
  else if !(filterMatchSubstring e.location f.location_not_contains true) then false
  else true

/-- The `transformations` table of one filter set. -/
structure Transformation where
  set_event_name : Option String
  set_location : Option String
  set_rsvp_status : Option String
  strip_name : Bool
  strip_if_event_name_contains : List String
  strip_if_event_name_not_contains : List String
  strip_location : Bool
  strip_if_location_contains : List String
  strip_if_location_not_contains : List String
deriving DecidableEq

/-- Python `val.replace(chr(10), " ")` as used by the transform engine. -/
def pyReplaceNewline (s : String) : String :=
  String.mk (s.data.map (fun c => if c == '\n' then ' ' else c))

/-- Python `str.strip()`: drop whitespace from both ends. -/
def pyStrip (s : String) : String :=
  String.mk (((s.data.dropWhile Char.isWhitespace).reverse.dropWhile Char.isWhitespace).reverse)

/-- The normalization applied inside `transform_event.match_substring`. -/
def normalizeText (s : String) : String :=
  pyStrip (pyReplaceNewline s)

/-- The inner `match_substring` of `EventTransformer.transform_event`:
an EMPTY list returns `false` (unlike the filter engine); otherwise it
returns `true` as soon as one normalized substring is contained
(`negate = false`) or not contained (`negate = true`) in the normalized
value. -/
def transformMatchSubstring (val : String) (substrings : List String) (negate : Bool) : Bool :=
  if substrings.isEmpty then false
  else
    let normalized_val := normalizeText val
    substrings.any (fun s => (strContains normalized_val (normalizeText s)) != negate)

/-- The three unconditional overrides of `transform_event`
(source lines 86-91). -/
def applyOverrides (event : Event) (t : Transformation) : Event :=
  let event := match t.set_event_name with
    | some v => { event with summary := v }
    | none => event
  let event := match t.set_location with
    | some v => { event with location := v }
    | none => event
  match t.set_rsvp_status with
  | some v => { event with rsvp := v }
  | none => event

/-- The `do_strip_name` flag of `transform_event` (source lines 94-102):
start from `strip_name`; when any strip option is set, a contains hit
raises the flag and a not-contains hit (true negated containment,
`negate = true`) clears it afterwards. -/
def doStripName (event : Event) (t : Transformation) : Bool :=
  let strip_name := t.strip_name
  if strip_name || !t.strip_if_event_name_contains.isEmpty
      || !t.strip_if_event_name_not_contains.isEmpty then
    let d := if transformMatchSubstring event.summary t.strip_if_event_name_contains false
      then true else strip_name
    if transformMatchSubstring event.summary t.strip_if_event_name_not_contains true
      then false else d
  else strip_name

/-- The `do_strip_location` flag of `transform_event` (source lines
108-116).  NOTE: line 115 of the source passes `False` (not `True`) as
the negate flag of the not-contains check, so — unlike the summary path —
the location strip is cancelled when the entry IS contained.  This
embedding reproduces that call faithfully. -/
def doStripLocation (event : Event) (t : Transformation) : Bool :=
  let strip_location := t.strip_location
  if strip_location || !t.strip_if_location_contains.isEmpty
      || !t.strip_if_location_not_contains.isEmpty then
    let d := if transformMatchSubstring event.location t.strip_if_location_contains false
      then true else strip_location
    if transformMatchSubstring event.location t.strip_if_location_not_contains false
      then false else d
  else strip_location

/-- Source lines 103-104. -/
def applyNameStrip (event : Event) (t : Transformation) : Event :=
  if doStripName event t then { event with summary := "" } else event

/-- Source lines 117-118. -/
def applyLocationStrip (event : Event) (t : Transformation) : Event :=
  if doStripLocation event t then { event with location := "" } else event

/-- `EventTransformer.transform_event`: the overrides run first, then the
conditional strip for the summary, then the conditional strip for the
location, each stage reading the event as left by the previous one. -/
def transform_event (event : Event) (t : Transformation) : Event :=
  applyLocationStrip (applyNameStrip (applyOverrides event t) t) t

/-- Python `a or b` on optional strings: `a` when it is a non-empty
string, else `b`. -/
def pyOrStr (a b : Option String) : Option String :=
  match a with
  | some s => if s == "" then b else some s
  | none => b

/-- `EventTransformer.event_uid`: `original_uid or uid`, the identity key
used for duplicate detection. -/
def event_uid (e : Event) : Option String :=
  pyOrStr e.original_uid e.uid

/-- One destination-calendar event as read in `EventTransformer.run`
(lines 168-178 and 303-310 of the source): its own UID, its summary and
times, and the `X-ORIGINAL-UID` extension property when present. -/
structure DestEvent where
  uid : String
  summary : String
  dtstart : CalTime
  dtend : Option CalTime
  x_original_uid : Option String
deriving DecidableEq

/-- `current_uid` of a destination event: `original_uid.value if
original_uid else vevent.uid.value`. -/
def currentUid (e : DestEvent) : String :=
  e.x_original_uid.getD e.uid

/-- The `dest_keys` set, built from EVERY destination event during the
first pass of `run` — before any deletion is executed, and never rebuilt. -/
def destKeysOf (destEvents : List DestEvent) : List String :=
  destEvents.map currentUid

/-- The retention trigger of `run` (source lines 183-197): with
`past_keep_days = 0` delete a record whose end has elapsed; with
`past_keep_days > 0` delete a record whose start is before
`now - past_keep_days` days; otherwise (negative or absent) delete
nothing. -/
def retentionShouldDelete (pastKeepDays : Option Int) (now : Int)
    (dtstart : CalTime) (dtend : Option CalTime) : Bool :=
  match pastKeepDays with
  | none => false
  | some n =>
    if n = 0 then
      match dtend with
      | some e => awareSeconds e < now
      | none => false
    else if n > 0 then
      awareSeconds dtstart < now - n * secondsPerDay
    else false

/-- One filter set from the configuration: a `filters` table paired with
a `transformations` table. -/
structure FilterSet where
  filters : Filters
  transformations : Transformation
deriving DecidableEq

/-- The copy step `e_copy[...] = e.get("uid")` before transformation:
capture the source-native key as the origin identity. -/
def setOriginalUid (e : Event) : Event :=
  { e with original_uid := e.uid }

/-- The inner loop of `run` for one filter set (source lines 286-296):
keep the events matching the filter, drop those `should_delete_event`
accepts, and transform the rest with the origin identity captured. -/
def transformedForFilter (sourceEvents : List Event) (fo : FilterSet) : List Event :=
  ((sourceEvents.filter (fun e => match_event e fo.filters)).filter
      (fun e => !should_delete_event e)).map
    (fun e => transform_event (setOriginalUid e) fo.transformations)

/-- The whole `transformed` list of a run (source lines 211-296):
filter sets whose `calendar_name` is absent, empty, or names the
destination calendar are skipped; the rest contribute in order.
`sourceEventsByCal` stands for the external fetch of one source
calendar's events (an out-of-scope collaborator), with a missing
calendar yielding the empty list. -/
def runTransformed (destCalendar : String) (filterSets : List FilterSet)
    (sourceEventsByCal : String → List Event) : List Event :=
  filterSets.flatMap (fun fo =>
    match fo.filters.calendar_name with
    | none => []
    | some cn =>
      if cn == "" || cn == destCalendar then []
      else transformedForFilter (sourceEventsByCal cn) fo)

/-- The second deletion pass of `run` (source lines 302-330), applied to
a destination event that survived the retention pass: delete when it was
previously imported but its origin identity is no longer among the
transformed identities, when its summary starts with the cancellation
glyph, or when a transformed record with its identity should be deleted. -/
def remainingDeleteCond (transformed : List Event) (e : DestEvent) : Bool :=
  let sourceEventUids := transformed.map event_uid
  if e.x_original_uid.isSome && !(sourceEventUids.contains (some (currentUid e))) then true
  else if strStartsWith e.summary "❌" then true
  else match transformed.find? (fun ev => event_uid ev == some (currentUid e)) with
    | some src => should_delete_event src
    | none => false

/-- The destination events still present after both deletion passes of a
run. -/
def runSurvivors (pastKeepDays : Option Int) (now : Int) (transformed : List Event)
    (destEvents : List DestEvent) : List DestEvent :=
  (destEvents.filter (fun e => !retentionShouldDelete pastKeepDays now e.dtstart e.dtend)).filter
    (fun e => !remainingDeleteCond transformed e)

/-- The insertion phase of `run` (source lines 340-346): a transformed
record is saved unless its identity key is in `dest_keys`.  `dest_keys`
is the set built before the deletions (and a `None` key is never in a
set of strings, so such a record is always saved). -/
def runInserted (destEvents : List DestEvent) (transformed : List Event) : List Event :=
  transformed.filter (fun e =>
    match event_uid e with
    | some k => !((destKeysOf destEvents).contains k)
    | none => true)

/-- The identity key a saved record carries in the destination
(`event_to_ical`, source lines 390-391): the `X-ORIGINAL-UID` extension
field is written only when `original_uid` is truthy; otherwise the
record carries nothing but its freshly generated random UID (`none`
here). -/
def insertedIdentity (e : Event) : Option String :=
  match e.original_uid with
  | some s => if s == "" then none else some s
  | none => none

/-- The DTSTART/DTEND computation of `EventTransformer.event_to_ical`
(source lines 349-385): an all-day event (date-valued start) serializes
date values, with a missing end defaulting to start + 1 day; a timed
event serializes UTC instants, with a missing end defaulting to
start + duration when a duration is present, else start + 1 hour. -/
def serializedTimes (e : Event) : CalTime × CalTime :=
  match e.dtstart with
  | .date d =>
    (CalTime.date d,
     match e.dtend with
     | some (.instant t) => CalTime.date (t.fdiv secondsPerDay)
     | some (.date d2) => CalTime.date d2
     | none => CalTime.date (d + 1))
  | .instant t =>
    (CalTime.instant t,
     match e.dtend with
     | some en => en
     | none =>
       match e.duration with
       | some dur => CalTime.instant (t + dur)
       | none => CalTime.instant (t + secondsPerHour))

/-!
Concrete configuration and event values used for the closed runs of the
counterexample and witness theorems below.
-/

/-- A transformation rule with every option unset. -/
def idTransformation : Transformation :=
  { set_event_name := none, set_location := none, set_rsvp_status := none,
    strip_name := false, strip_if_event_name_contains := [],
    strip_if_event_name_not_contains := [], strip_location := false,
    strip_if_location_contains := [], strip_if_location_not_contains := [] }

/-- A filter set selecting every event of the calendar named Work, with no
further predicates, paired with the empty transformation rule. -/
def fsWorkPlain : FilterSet :=
  { filters :=
      { calendar_name := some "Work", not_calendar_name := none,
        event_name_contains := [], event_name_not_contains := [],
        location_contains := [], location_not_contains := [] },
    transformations := idTransformation }

/-- An accepted source event of the Work calendar with uid uid1. -/
def evWork : Event :=
  { calendar := "Work", uid := some "uid1", summary := "Team Meeting",
    dtstart := .instant 1000, dtend := none, duration := none,
    location := "Room 1", rsvp := "", original_uid := none }

/-- A source map holding exactly `evWork` under the Work calendar. -/
def srcWorkOnly : String → List Event :=
  fun c => if c == "Work" then [evWork] else []

/-- A declined source event. -/
def evDeclined : Event :=
  { calendar := "Work", uid := some "uid2", summary := "Lunch Meeting",
    dtstart := .instant 1000, dtend := none, duration := none,
    location := "Cafeteria", rsvp := "declined", original_uid := none }

/-- A destination record previously imported from uid1 whose summary now
starts with the cancellation glyph, so the second deletion pass removes it. -/
def deCross : DestEvent :=
  { uid := "dav1", summary := "❌ Team Meeting", dtstart := .instant 0,
    dtend := none, x_original_uid := some "uid1" }

/-- An already-transformed record carrying origin identity uid1. -/
def evImported : Event :=
  { calendar := "Work", uid := some "uid1", summary := "Team Meeting",
    dtstart := .instant 1000, dtend := none, duration := none,
    location := "Room 1", rsvp := "", original_uid := some "uid1" }

/-- An event whose location contains the word Room. -/
def evRoom : Event :=
  { calendar := "Work", uid := some "uid3", summary := "Room A",
    dtstart := .instant 1000, dtend := none, duration := none,
    location := "Room A", rsvp := "", original_uid := none }

/-- Strip the location unconditionally, except that the
strip-if-location-not-contains list holds the entry Room. -/
def ruleStripLocUnlessRoom : Transformation :=
  { set_event_name := none, set_location := none, set_rsvp_status := none,
    strip_name := false, strip_if_event_name_contains := [],
    strip_if_event_name_not_contains := [], strip_location := true,
    strip_if_location_contains := [], strip_if_location_not_contains := ["Room"] }

/-- The rule symmetric to `ruleStripLocUnlessRoom` on the summary path. -/
def ruleStripNameUnlessRoom : Transformation :=
  { set_event_name := none, set_location := none, set_rsvp_status := none,
    strip_name := true, strip_if_event_name_contains := [],
    strip_if_event_name_not_contains := ["Room"], strip_location := false,
    strip_if_location_contains := [], strip_if_location_not_contains := [] }

/-- Strip summary and location unconditionally, all lists empty. -/
def ruleStripBoth : Transformation :=
  { set_event_name := none, set_location := none, set_rsvp_status := none,
    strip_name := true, strip_if_event_name_contains := [],
    strip_if_event_name_not_contains := [], strip_location := true,
    strip_if_location_contains := [], strip_if_location_not_contains := [] }

/-- An all-day source event (date-valued start, no end). -/
def evAllDay : Event :=
  { calendar := "Work", uid := some "uid4", summary := "Offsite",
    dtstart := .date 20000, dtend := none, duration := none,
    location := "", rsvp := "", original_uid := none }

/-- A filter table exercising every clause of the filter engine. -/
def wFilters : Filters :=
  { calendar_name := some "Work", not_calendar_name := some "Dest",
    event_name_contains := ["Team"], event_name_not_contains := ["Secret"],
    location_contains := ["Room"], location_not_contains := ["Hidden"] }

/-!
Helper lemmas shared by the claim theorems.
-/

theorem filterMatchSubstring_eq_all (val : String) (subs : List String) (neg : Bool) :
    filterMatchSubstring val subs neg = subs.all (fun s => !(strContains val s == neg)) := by
  cases subs <;> simp [filterMatchSubstring]

theorem filterMatchSubstring_false_iff (val : String) (subs : List String) :
    filterMatchSubstring val subs false = true ↔ ∀ s ∈ subs, strContains val s = true := by
  rw [filterMatchSubstring_eq_all]
  simp [List.all_eq_true]

theorem filterMatchSubstring_true_iff (val : String) (subs : List String) :
    filterMatchSubstring val subs true = true ↔ ∀ s ∈ subs, strContains val s = false := by
  rw [filterMatchSubstring_eq_all]
  simp [List.all_eq_true]

theorem optTruthy_eq_clause (o : Option String) (c : String) :
    (optTruthy o && !((some c : Option String) == o)) = false ↔
      (∀ cn, o = some cn → cn ≠ "" → c = cn) := by
  cases o with
  | none => simp [optTruthy]
  | some cn => by_cases h : cn = "" <;> simp [optTruthy, h]

theorem optTruthy_ne_clause (o : Option String) (c : String) :
    (optTruthy o && ((some c : Option String) == o)) = false ↔
      (∀ cn, o = some cn → cn ≠ "" → c ≠ cn) := by
  cases o with
  | none => simp [optTruthy]
  | some cn => by_cases h : cn = "" <;> simp [optTruthy, h]

theorem match_event_true_iff (e : Event) (f : Filters) :
    match_event e f = true ↔
      ((optTruthy f.calendar_name && !(some e.calendar == f.calendar_name)) = false ∧
       (optTruthy f.not_calendar_name && (some e.calendar == f.not_calendar_name)) = false ∧
       filterMatchSubstring e.summary f.event_name_contains false = true ∧
       filterMatchSubstring e.summary f.event_name_not_contains true = true ∧
       filterMatchSubstring e.location f.location_contains false = true ∧
       filterMatchSubstring e.location f.location_not_contains true = true) := by
  unfold match_event
  by_cases h1 : (optTruthy f.calendar_name && !(some e.calendar == f.calendar_name)) = true <;>
  by_cases h2 : (optTruthy f.not_calendar_name && (some e.calendar == f.not_calendar_name)) = true <;>
  by_cases h3 : filterMatchSubstring e.summary f.event_name_contains false = true <;>
  by_cases h4 : filterMatchSubstring e.summary f.event_name_not_contains true = true <;>
  by_cases h5 : filterMatchSubstring e.location f.location_contains false = true <;>
  by_cases h6 : filterMatchSubstring e.location f.location_not_contains true = true <;>
  simp_all [imp_iff_not_or, Bool.not_eq_true]

theorem applyOverrides_original_uid (e : Event) (t : Transformation) :
    (applyOverrides e t).original_uid = e.original_uid := by
  unfold applyOverrides
  cases t.set_event_name <;> cases t.set_location <;> cases t.set_rsvp_status <;> rfl

theorem applyNameStrip_original_uid (e : Event) (t : Transformation) :
    (applyNameStrip e t).original_uid = e.original_uid := by
  unfold applyNameStrip
  split <;> rfl

theorem applyLocationStrip_original_uid (e : Event) (t : Transformation) :
    (applyLocationStrip e t).original_uid = e.original_uid := by
  unfold applyLocationStrip
  split <;> rfl

theorem applyOverrides_summary (e : Event) (t : Transformation) :
    (applyOverrides e t).summary = t.set_event_name.getD e.summary := by
  unfold applyOverrides
  cases t.set_event_name <;> cases t.set_location <;> cases t.set_rsvp_status <;> rfl

theorem applyOverrides_location (e : Event) (t : Transformation) :
    (applyOverrides e t).location = t.set_location.getD e.location := by
  unfold applyOverrides
  cases t.set_event_name <;> cases t.set_location <;> cases t.set_rsvp_status <;> rfl

theorem applyNameStrip_location (e : Event) (t : Transformation) :
    (applyNameStrip e t).location = e.location := by
  unfold applyNameStrip
  split <;> rfl

theorem applyLocationStrip_summary (e : Event) (t : Transformation) :
    (applyLocationStrip e t).summary = e.summary := by
  unfold applyLocationStrip
  split <;> rfl

theorem doStripName_of_strip (ev : Event) (t : Transformation) (h1 : t.strip_name = true)
    (h2 : t.strip_if_event_name_not_contains = []) : doStripName ev t = true := by
  unfold doStripName
  rw [h1, h2]
  simp [transformMatchSubstring]

theorem doStripName_of_no_strip (ev : Event) (t : Transformation) (h1 : t.strip_name = false)
    (h2 : t.strip_if_event_name_contains = []) : doStripName ev t = false := by
  unfold doStripName
  rw [h1, h2]
  rw [show transformMatchSubstring ev.summary [] false = false from rfl]
  simp

theorem doStripLocation_of_strip (ev : Event) (t : Transformation)
    (h1 : t.strip_location = true) (h2 : t.strip_if_location_not_contains = []) :
    doStripLocation ev t = true := by
  unfold doStripLocation
  rw [h1, h2]
  simp [transformMatchSubstring]

theorem doStripLocation_of_no_strip (ev : Event) (t : Transformation)
    (h1 : t.strip_location = false) (h2 : t.strip_if_location_contains = []) :
    doStripLocation ev t = false := by
  unfold doStripLocation
  rw [h1, h2]
  rw [show transformMatchSubstring ev.location [] false = false from rfl]
  simp

theorem should_delete_iff (r : Event) : should_delete_event r = true ↔
    ((r.rsvp ≠ "" ∧ strUpper r.rsvp = "DECLINED") ∨ strStartsWith r.summary "❌" = true) := by
  unfold should_delete_event
  by_cases h1 : r.rsvp = "" <;> by_cases h2 : strUpper r.rsvp = "DECLINED" <;>
    by_cases h3 : strStartsWith r.summary "❌" = true <;>
    simp [h1, h2, h3]

theorem filter_drop_deleted (src : List Event) (r : Event) (hr : should_delete_event r = true)
    (m : Event → Bool) :
    ((src.filter (fun e => !(e == r))).filter m).filter (fun e => !should_delete_event e) =
      (src.filter m).filter (fun e => !should_delete_event e) := by
  simp only [List.filter_filter]
  apply List.filter_congr
  intro a _
  by_cases ha : a = r
  · subst ha
    simp [hr]
  · rw [show (a == r) = false from beq_eq_false_iff_ne.mpr ha]
    simp

/-!
Claim theorems.
-/

/-- C1: the claim — at most one record per identity key present in the
destination after the insertion phase — FAILS on the code.  With two
filter sets selecting the Work calendar and one source event uid1, the
run produces two transformed records with identity uid1, and against an
empty destination the insertion phase inserts BOTH (the gating key set
`dest_keys` is never extended while inserting), so two destination
records with identity key uid1 are present afterwards. -/
theorem c1_duplicate_insertion :
    ((runTransformed "Dest" [fsWorkPlain, fsWorkPlain] srcWorkOnly).map event_uid
      = [some "uid1", some "uid1"]) ∧
    (((runInserted [] (runTransformed "Dest" [fsWorkPlain, fsWorkPlain] srcWorkOnly)).filter
      (fun e => insertedIdentity e == some "uid1")).length = 2) := by
  decide

/-- C2 counterexample: the claim — a transformed record whose identity
key belongs only to a destination record deleted earlier in the same run
is inserted — FAILS on the code.  The sole destination record carries
identity uid1 and is deleted by the second deletion pass (its summary
starts with the cancellation glyph), the run produces a transformed
record with identity uid1, yet the insertion phase inserts nothing
because the gating key set was built from the pre-deletion destination
contents and never rebuilt. -/
theorem c2_counterexample :
    ((runTransformed "Dest" [fsWorkPlain] srcWorkOnly).map event_uid = [some "uid1"]) ∧
    destKeysOf [deCross] = ["uid1"] ∧
    runSurvivors none 100 (runTransformed "Dest" [fsWorkPlain] srcWorkOnly) [deCross] = [] ∧
    runInserted [deCross] (runTransformed "Dest" [fsWorkPlain] srcWorkOnly) = [] := by
  decide

/-- C2 amended: all deletions do execute before any insertion, but the
destination index gating insertions is built from the pre-deletion
destination contents and is NOT rebuilt after the deletions; hence a
transformed record whose identity key occurs among the pre-deletion
destination keys is always skipped by the insertion phase, even when
every destination record bearing that key was deleted earlier in the
same run. -/
theorem c2_stale_index_skips_requalified (destEvents : List DestEvent)
    (transformed : List Event) (e : Event) (k : String)
    (h1 : event_uid e = some k) (h2 : k ∈ destKeysOf destEvents) :
    e ∉ runInserted destEvents transformed := by
  intro hmem
  have hp := (List.mem_filter.mp hmem).2
  rw [h1] at hp
  simp only [Bool.not_eq_true'] at hp
  rw [show (destKeysOf destEvents).contains k = true from List.elem_iff.mpr h2] at hp
  exact Bool.noConfusion hp

/-- C2 witness: concrete instance of the amended claim. -/
theorem c2_stale_index_witness :
    evImported ∉ runInserted [deCross] [evImported] :=
  c2_stale_index_skips_requalified [deCross] [evImported] evImported "uid1"
    (by decide) (by decide)

/-- C3: the claim — the location not-contains strip check uses correctly
negated containment, symmetric to the summary path — FAILS on the code
(source line 115 passes `False` as the negate flag).  At an event whose
location is Room A and a rule stripping the location unless it lacks the
entry Room, the entry IS contained, so a correctly negated check would
not cancel and the location would be stripped to the empty string; the
code cancels the strip and leaves Room A.  The symmetric summary rule at
the same input strips the summary, exhibiting the asymmetry. -/
theorem c3_location_strip_defect :
    strContains (normalizeText "Room A") (normalizeText "Room") = true ∧
    (transform_event evRoom ruleStripLocUnlessRoom).location = "Room A" ∧
    (transform_event evRoom ruleStripNameUnlessRoom).summary = "" := by
  decide

/-- C4: `should_delete_event` is true exactly for a case-insensitively
DECLINED participation status or a summary starting with the
cancellation glyph; such a source record is dropped before the transform
step, so removing it from the source changes nothing about the
transformed set; and every inserted record comes from the transformed
set. -/
theorem c4_decline_propagation (r : Event) :
    (should_delete_event r = true ↔
      ((r.rsvp ≠ "" ∧ strUpper r.rsvp = "DECLINED") ∨ strStartsWith r.summary "❌" = true)) ∧
    (should_delete_event r = true → ∀ (src : List Event) (fo : FilterSet),
      transformedForFilter src fo =
        transformedForFilter (src.filter (fun e => !(e == r))) fo) ∧
    (∀ (destEvents : List DestEvent) (transformed : List Event) (e : Event),
      e ∈ runInserted destEvents transformed → e ∈ transformed) := by
  refine ⟨should_delete_iff r, ?_, ?_⟩
  · intro h src fo
    unfold transformedForFilter
    rw [filter_drop_deleted src r h]
  · intro destEvents transformed e hmem
    exact (List.mem_filter.mp hmem).1

/-- C4 witness: the declined event contributes nothing to the
transformed set. -/
theorem c4_decline_propagation_witness :
    transformedForFilter [evDeclined] fsWorkPlain =
      transformedForFilter ([evDeclined].filter (fun e => !(e == evDeclined))) fsWorkPlain :=
  (c4_decline_propagation evDeclined).2.1 (by decide) [evDeclined] fsWorkPlain

/-- C5: `match_event` returns true iff every clause holds, AND-combined:
collection-name equality and inequality constraints when set (non-empty),
the summary contains every entry of the contains list and none of the
not-contains list, likewise for the location, with an empty list
vacuously true; containment is `strContains`, case-sensitive exact
substring containment with no normalization. -/
theorem c5_match_event_spec (e : Event) (f : Filters) :
    match_event e f = true ↔
      ((∀ cn, f.calendar_name = some cn → cn ≠ "" → e.calendar = cn) ∧
       (∀ cn, f.not_calendar_name = some cn → cn ≠ "" → e.calendar ≠ cn) ∧
       (∀ s ∈ f.event_name_contains, strContains e.summary s = true) ∧
       (∀ s ∈ f.event_name_not_contains, strContains e.summary s = false) ∧
       (∀ s ∈ f.location_contains, strContains e.location s = true) ∧
       (∀ s ∈ f.location_not_contains, strContains e.location s = false)) := by
  rw [match_event_true_iff, optTruthy_eq_clause, optTruthy_ne_clause,
    filterMatchSubstring_false_iff, filterMatchSubstring_true_iff,
    filterMatchSubstring_false_iff, filterMatchSubstring_true_iff]

/-- C5 witness: a concrete event satisfying all six clauses matches. -/
theorem c5_match_event_spec_witness : match_event evWork wFilters = true := by
  apply (c5_match_event_spec evWork wFilters).mpr
  refine ⟨?_, ?_, by decide, by decide, by decide, by decide⟩
  · intro cn hc hne
    injection hc
  · intro cn hc hne
    injection hc with h
    subst h
    decide

/-- C6: with retention parameter N > 0, a destination record whose start
lies exactly N days before now is retained, and one whose start lies
exactly N + 1 days before now is deleted by the retention trigger,
whatever its end. -/
theorem c6_retention_boundary (n now : Int) (hn : 0 < n) :
    (∀ en, retentionShouldDelete (some n) now (.instant (now - n * secondsPerDay)) en = false) ∧
    (∀ en, retentionShouldDelete (some n) now
      (.instant (now - (n + 1) * secondsPerDay)) en = true) := by
  have h0 : ¬n = 0 := by omega
  constructor <;> intro en <;>
    simp only [retentionShouldDelete, awareSeconds, if_neg h0, if_pos hn] <;>
    simp only [decide_eq_false_iff_not, decide_eq_true_eq, secondsPerDay] <;> omega

/-- C6 witness: the boundary at N = 3, now = 0. -/
theorem c6_retention_boundary_witness :
    retentionShouldDelete (some 3) 0 (.instant (0 - 3 * secondsPerDay)) none = false ∧
    retentionShouldDelete (some 3) 0 (.instant (0 - (3 + 1) * secondsPerDay)) none = true :=
  ⟨(c6_retention_boundary 3 0 (by decide)).1 none,
   (c6_retention_boundary 3 0 (by decide)).2 none⟩

/-- C7: with retention parameter 0, every destination record whose end
has already elapsed relative to now is deleted by the retention trigger;
with a negative or absent parameter the trigger deletes nothing. -/
theorem c7_retention_zero_and_disabled (now : Int) (st : CalTime) :
    (∀ en : CalTime, awareSeconds en < now →
      retentionShouldDelete (some 0) now st (some en) = true) ∧
    (∀ n : Int, n < 0 → ∀ en, retentionShouldDelete (some n) now st en = false) ∧
    (∀ en, retentionShouldDelete none now st en = false) := by
  refine ⟨?_, ?_, ?_⟩
  · intro en h
    simp [retentionShouldDelete, h]
  · intro n hn en
    have h0 : ¬n = 0 := by omega
    have h1 : ¬n > 0 := by omega
    simp [retentionShouldDelete, if_neg h0, if_neg h1]
  · intro en
    rfl

/-- C7 witness: concrete instances of all three parts. -/
theorem c7_retention_witness :
    retentionShouldDelete (some 0) 100 (.instant 0) (some (.instant 50)) = true ∧
    retentionShouldDelete (some (-1)) 100 (.instant 0) (some (.instant 50)) = false ∧
    retentionShouldDelete none 100 (.instant 0) (some (.instant 50)) = false :=
  ⟨(c7_retention_zero_and_disabled 100 (.instant 0)).1 (.instant 50) (by decide),
   (c7_retention_zero_and_disabled 100 (.instant 0)).2.1 (-1) (by decide) (some (.instant 50)),
   (c7_retention_zero_and_disabled 100 (.instant 0)).2.2 (some (.instant 50))⟩

/-- C8: no transform step writes the origin identity — `transform_event`
leaves the `original_uid` field of every record unchanged under every
rule. -/
theorem c8_origin_identity_untouched (e : Event) (t : Transformation) :
    (transform_event e t).original_uid = e.original_uid := by
  unfold transform_event
  rw [applyLocationStrip_original_uid, applyNameStrip_original_uid,
    applyOverrides_original_uid]

/-- C9: serialization supplies a default end — for a timed record with
no end and no duration the serialized end is start plus one hour; for an
all-day record with no end it is start plus one day. -/
theorem c9_default_end_serialization (e : Event) :
    (∀ t, e.dtstart = CalTime.instant t → e.dtend = none → e.duration = none →
      (serializedTimes e).2 = CalTime.instant (t + secondsPerHour)) ∧
    (∀ d, e.dtstart = CalTime.date d → e.dtend = none →
      (serializedTimes e).2 = CalTime.date (d + 1)) := by
  constructor
  · intro t h1 h2 h3
    simp [serializedTimes, h1, h2, h3]
  · intro d h1 h2
    simp [serializedTimes, h1, h2]

/-- C9 witness: the defaults at a concrete timed and a concrete all-day
event. -/
theorem c9_default_end_witness :
    (serializedTimes evWork).2 = CalTime.instant (1000 + secondsPerHour) ∧
    (serializedTimes evAllDay).2 = CalTime.date (20000 + 1) :=
  ⟨(c9_default_end_serialization evWork).1 1000 rfl rfl rfl,
   (c9_default_end_serialization evAllDay).2 20000 rfl rfl⟩

/-- C10: in the transform engine the inner match on an empty substring
list returns false for every value and either negate flag; consequently
an empty strip-if-not-contains list never cancels a strip decision (the
strip goes through) and an empty strip-if-contains list never triggers
one (the field keeps its override or original value). -/
theorem c10_transform_empty_list_matches_nothing (val : String) (neg : Bool)
    (e : Event) (t : Transformation) :
    transformMatchSubstring val [] neg = false ∧
    (t.strip_name = true → t.strip_if_event_name_not_contains = [] →
      (transform_event e t).summary = "") ∧
    (t.strip_name = false → t.strip_if_event_name_contains = [] →
      (transform_event e t).summary = t.set_event_name.getD e.summary) ∧
    (t.strip_location = true → t.strip_if_location_not_contains = [] →
      (transform_event e t).location = "") ∧
    (t.strip_location = false → t.strip_if_location_contains = [] →
      (transform_event e t).location = t.set_location.getD e.location) := by
  refine ⟨rfl, ?_, ?_, ?_, ?_⟩
  · intro h1 h2
    unfold transform_event
    rw [applyLocationStrip_summary]
    unfold applyNameStrip
    rw [doStripName_of_strip _ _ h1 h2]
    rfl
  · intro h1 h2
    unfold transform_event
    rw [applyLocationStrip_summary]
    unfold applyNameStrip
    rw [doStripName_of_no_strip _ _ h1 h2]
    simp [applyOverrides_summary]
  · intro h1 h2
    unfold transform_event applyLocationStrip
    rw [doStripLocation_of_strip _ _ h1 h2]
    rfl
  · intro h1 h2
    unfold transform_event applyLocationStrip
    rw [doStripLocation_of_no_strip _ _ h1 h2]
    simp [applyNameStrip_location, applyOverrides_location]

/-- C10 witness: with empty conditional lists, the unconditional strip
rule empties both fields and the empty rule leaves the location alone. -/
theorem c10_empty_list_witness :
    (transform_event evWork ruleStripBoth).summary = "" ∧
    (transform_event evWork ruleStripBoth).location = "" ∧
    (transform_event evWork idTransformation).location = "Room 1" :=
  ⟨(c10_transform_empty_list_matches_nothing "" false evWork ruleStripBoth).2.1 rfl rfl,
   (c10_transform_empty_list_matches_nothing "" false evWork ruleStripBoth).2.2.2.1 rfl rfl,
   (c10_transform_empty_list_matches_nothing "" false evWork idTransformation).2.2.2.2 rfl rfl⟩

end CalendarTransformer
